import Mathlib

/-!
Shallow embedding of the reconciliation and enrichment engine of
src/main.py (class CovidDataEnhancedFactory).

Python dictionaries keyed by strings are modelled as functions
String to Option, written Dict below.  The per-key loops of
combine_data mutate the dictionary only at the key being visited and
read only that same key, so each loop is embedded as a pointwise
function on dictionaries.  Machine integers are Int (Python ints are
unbounded), real arithmetic is modelled exactly over Rat, and code
that can raise is embedded in Except String.
-/

namespace Covid

/-- Dictionary keyed by strings, as in the Python dicts of main.py. -/
abbrev Dict (α : Type) := String → Option α

/-- Pointwise dictionary assignment, modelling d[k] = v. -/
def dupdate {α : Type} (m : Dict α) (k : String) (v : α) : Dict α :=
  fun x => if x = k then some v else m x

/-- Value of the source field of a record: main.py stores either a plain
string (e.g. the literal JHU CSSE) or a per-locale dict of strings
(manual source rows). -/
inductive Source
  | str (s : String)
  | loc (m : List (String × String))
deriving DecidableEq

/-- Record built by add_country_data (src/main.py lines 194-203). -/
structure CountryRec where
  code : String
  titles : List (String × String)
  confirmed : Int
  deaths : Int
  recovered : Int
  active : Int
  latest_update : String
  source : Source
deriving DecidableEq

/-- Static alias table TITLES of src/main.py lines 42-99, in source order. -/
def TITLES : List (String × String) := [
  ("Iran (Islamic Republic of)", "Iran"),
  ("US", "United States of America"),
  ("USA", "United States of America"),
  ("UK", "United Kingdom"),
  ("Republic of Moldova", "Moldova"),
  ("Mainland China", "China"),
  ("Viet Nam", "Vietnam"),
  ("Macao SAR", "Macau S.A.R"),
  ("Macao", "Macau S.A.R"),
  ("China, Macao SAR", "Macau S.A.R"),
  ("Russian Federation", "Russia"),
  ("China, Hong Kong SAR", "Hong Kong S.A.R."),
  ("Hong Kong SAR", "Hong Kong S.A.R."),
  ("Hong Kong", "Hong Kong S.A.R."),
  ("Holy See", "Vatican (Holy See)"),
  ("Vatican (Holy Sea)", "Vatican (Holy See)"),
  ("Vatican City", "Vatican (Holy See)"),
  ("occupied Palestinian territory", "The Palestinian Territories"),
  ("Palestine", "The Palestinian Territories"),
  ("West Bank and Gaza", "The Palestinian Territories"),
  ("State of Palestine", "The Palestinian Territories"),
  ("Republic of Korea", "Korea, South"),
  ("S. Korea", "Korea, South"),
  ("Czechia", "Czech Republic"),
  ("Taiwan*", "Taiwan"),
  ("China, Taiwan Province of China", "Taiwan"),
  ("Cote d\x27Ivoire", "Ivory Coast (C\xf4te d\x27Ivoire)"),
  ("C\xf4te d\x27Ivoire", "Ivory Coast (C\xf4te d\x27Ivoire)"),
  ("Ivory Coast", "Ivory Coast (C\xf4te d\x27Ivoire)"),
  ("UAE", "United Arab Emirates"),
  ("Faeroe Islands", "Faroe Islands"),
  ("St. Vincent Grenadines", "Saint Vincent and the Grenadines"),
  ("CAR", "Central African Republic"),
  ("St. Barth", "St. Barths"),
  ("Saint Barth\xe9lemy", "St. Barths"),
  ("DRC", "Democratic Republic of the Congo"),
  ("Congo (Kinshasa)", "Democratic Republic of the Congo"),
  ("Kyrgyzstan", "Kyrgyz Republic"),
  ("Diamond Princess", "Diamond Princess (Cruise Ship)"),
  ("MS Zaandam", "MS Zaandam (Cruise Ship)"),
  ("Cruise Ship", "Diamond Princess (Cruise Ship)"),
  ("Cabo Verde", "Cape Verde"),
  ("East Timor", "Timor-Leste"),
  ("Congo (Brazzaville)", "Congo"),
  ("Curacao", "Cura\xe7ao"),
  ("Burma", "Myanmar"),
  ("United Republic of Tanzania", "Tanzania"),
  ("Venezuela (Bolivarian Republic of)", "Venezuela"),
  ("Dem. People\x27s Republic of Korea", "North Korea"),
  ("Bolivia (Plurinational State of)", "Bolivia"),
  ("United States Virgin Islands", "U.S. Virgin Islands"),
  ("Lao People\x27s Democratic Republic", "Laos"),
  ("Brunei Darussalam", "Brunei"),
  ("Saint Martin (French part)", "Saint Martin"),
  ("Syrian Arab Republic", "Syria"),
  ("", "")]

/-- Python values that reach parse_num in this program: a native int,
a string, or None (the declared default of the text parameter). -/
inductive PyVal
  | int (n : Int)
  | str (s : String)
  | none

/-- Python str.strip with no arguments: remove leading and trailing
whitespace characters. -/
def pyStrip (s : String) : String :=
  String.mk (((s.data.dropWhile Char.isWhitespace).reverse.dropWhile
    Char.isWhitespace).reverse)

/-- Model of the call text.replace(",", "") in parse_num: the
pattern is a single character, so replacement is character removal. -/
def stripCommas (s : String) : String :=
  String.mk (s.data.filter (fun c => c != ','))

/-- Digit run accepted by the Python int constructor: decimal digits in
which a single underscore may separate two digits. -/
def pyDigits : List Char → Nat → Option Nat
  | [], acc => some acc
  | c :: cs, acc =>
    if c.isDigit then pyDigits cs (acc * 10 + (c.toNat - 48))
    else if c = '_' then
      match cs with
      | [] => Option.none
      | d :: _ => if d.isDigit then pyDigits cs acc else Option.none
    else Option.none

/-- Signed decimal literal accepted by the Python int constructor (the
argument is already whitespace-stripped when this is called). -/
def pySignedDigits : List Char → Option Int
  | [] => Option.none
  | '+' :: cs =>
    match cs with
    | [] => Option.none
    | d :: _ => if d.isDigit then (pyDigits cs 0).map Int.ofNat else Option.none
  | '-' :: cs =>
    match cs with
    | [] => Option.none
    | d :: _ =>
      if d.isDigit then (pyDigits cs 0).map (fun n => -(Int.ofNat n))
      else Option.none
  | c :: cs =>
    if c.isDigit then (pyDigits (c :: cs) 0).map Int.ofNat else Option.none

/-- Model of the Python builtin int applied to a string. -/
def pyParseInt (s : String) : Option Int :=
  pySignedDigits s.data

/-- parse_num of src/main.py lines 710-724.  An int is returned
unchanged; a string is stripped, commas are removed and the result is
parsed (0 on failure or emptiness); None falls through to
text.strip(), which raises AttributeError. -/
def parse_num (text : PyVal) : Except String Int :=
  match text with
  | PyVal.int n => Except.ok n
  | PyVal.none => Except.error "AttributeError"
  | PyVal.str s =>
    let t := stripCommas (pyStrip s)
    if t.length ≠ 0 then
      match pyParseInt t with
      | some n => Except.ok n
      | Option.none => Except.ok 0
    else Except.ok 0

/-- Alias rewrite of src/main.py lines 183-184: a truthy name that is a
key of TITLES is replaced by its alias target. -/
def normalize_title (country_name : String) : String :=
  if country_name ≠ "" then
    match List.lookup country_name TITLES with
    | some target => target
    | Option.none => country_name
  else country_name

/-- Identity Normalizer of the spec (section 4.1), extracted from
src/main.py lines 183-187: alias rewrite followed by the CODES lookup;
a falsy or unknown name yields no code. -/
def normalize (codes : Dict String) (raw : String) : Option String :=
  let name := normalize_title raw
  if name ≠ "" then codes name else Option.none

/-- add_country_data of src/main.py lines 178-208.  The CODES and
COUNTRIES tables are passed explicitly (they are process-global in the
source).  A record is produced only for a truthy name that resolves to
a code; parse_num failures propagate as exceptions. -/
def add_country_data (codes : Dict String)
    (countries : Dict (List (String × String)))
    (country_name : Option String) (confirmed deaths recovered : PyVal)
    (latest_update : String) (source : Source) :
    Except String (Option CountryRec) :=
  match country_name with
  | Option.none => Except.ok Option.none
  | some raw =>
    let name := normalize_title raw
    if name ≠ "" then
      match codes name with
      | some country_code =>
        match parse_num confirmed with
        | Except.error e => Except.error e
        | Except.ok c =>
          match parse_num deaths with
          | Except.error e => Except.error e
          | Except.ok d =>
            match parse_num recovered with
            | Except.error e => Except.error e
            | Except.ok r =>
              Except.ok (some
                { code := country_code
                  titles := (countries country_code).getD []
                  confirmed := c
                  deaths := d
                  recovered := r
                  active := if c - d - r > 0 then c - d - r else 0
                  latest_update := latest_update
                  source := source })
      | Option.none => Except.ok Option.none
    else Except.ok Option.none

/-- Row step of read_country_list (src/main.py lines 224-232): register
COUNTRIES[code] and CODES[english title] from one CSV data row
(code, english, russian). -/
def rcl_step (acc : Dict (List (String × String)) × Dict String)
    (row : String × String × String) :
    Dict (List (String × String)) × Dict String :=
  (dupdate acc.1 row.1 [("en", row.2.1), ("ru", row.2.2)],
   dupdate acc.2 row.2.1 row.1)

/-- read_country_list of src/main.py lines 210-234, over the data rows
of the reference sheet: returns the COUNTRIES and CODES tables. -/
def read_country_list (rows : List (String × String × String)) :
    Dict (List (String × String)) × Dict String :=
  rows.foldl rcl_step (fun _ => Option.none, fun _ => Option.none)

/-- Model of the call latest_update.replace("T", " ") in combine_data:
the pattern is a single character, so replacement is a character map. -/
def replaceT (s : String) : String :=
  String.mk (s.data.map (fun c => if c = 'T' then ' ' else c))

/-- Secondary-source step of combine_data, src/main.py lines 535-559.
Each CSSE git code is merged into the dataset: inserted when absent
(with latest_update normalized and source set to JHU CSSE), otherwise
each count is raised when strictly larger, and latest_update and
source are rewritten exactly when the outer raise condition fired. -/
def merge_csse (covid csse : Dict CountryRec) : Dict CountryRec :=
  fun code =>
    match csse code, covid code with
    | Option.none, cur => cur
    | some sec, Option.none =>
      some { sec with latest_update := replaceT sec.latest_update,
                      source := Source.str "JHU CSSE" }
    | some sec, some cur =>
      if cur.confirmed < sec.confirmed ∨ cur.deaths < sec.deaths ∨
          cur.recovered < sec.recovered then
        let cur := if cur.confirmed < sec.confirmed then
          { cur with confirmed := sec.confirmed } else cur
        let cur := if cur.deaths < sec.deaths then
          { cur with deaths := sec.deaths } else cur
        let cur := if cur.recovered < sec.recovered then
          { cur with recovered := sec.recovered } else cur
        some { cur with latest_update := replaceT sec.latest_update,
                        source := Source.str "JHU CSSE" }
      else some cur

/-- Worldometer override whitelist of src/main.py line 564. -/
def WOM_WHITELIST : List String := ["SRB", "KGZ", "KAZ", "RUS", "UKR", "MZX", "UZB"]

/-- Tertiary-source step of combine_data, src/main.py lines 561-569.
A Worldometer record is admitted when the code is absent from the
dataset or whitelisted, and then only when the code is known to
COUNTRIES; otherwise the dataset entry is untouched. -/
def merge_wom (countries : Dict (List (String × String)))
    (covid wom : Dict CountryRec) : Dict CountryRec :=
  fun code =>
    match wom code with
    | Option.none => covid code
    | some w =>
      if (covid code).isNone || WOM_WHITELIST.contains code then
        if (countries code).isSome then some w else covid code
      else covid code

/-- Marker for the warning branch of the tertiary step (src/main.py
line 569): true when the Worldometer code would be admitted but is
dropped because it is missing from COUNTRIES. -/
def wom_dropped (countries : Dict (List (String × String)))
    (covid wom : Dict CountryRec) (code : String) : Bool :=
  (wom code).isSome &&
    ((covid code).isNone || WOM_WHITELIST.contains code) &&
    (countries code).isNone

/-- Manual-source step of combine_data, src/main.py lines 571-574:
every manual code overwrites the dataset entry unconditionally. -/
def merge_manual (covid man : Dict CountryRec) : Dict CountryRec :=
  fun code =>
    match man code with
    | some m => some m
    | Option.none => covid code

/-- combine_data of src/main.py lines 520-576, as a function of the
four per-source mappings: ArcGIS seed, then the CSSE git repair step,
then the Worldometer step, then the manual overwrite step. -/
def combine_data (countries : Dict (List (String × String)))
    (arcgis csse wom man : Dict CountryRec) : Dict CountryRec :=
  merge_manual (merge_wom countries (merge_csse arcgis csse) wom) man

/-- Python round on an exact rational: round half to even. -/
def pyRound (q : ℚ) : ℤ :=
  let f : ℤ := Int.fdiv q.num (q.den : ℤ)
  let frac : ℚ := q - (f : ℚ)
  if frac < 1/2 then f
  else if 1/2 < frac then f + 1
  else if f % 2 = 0 then f else f + 1

/-- Python round(x, 2) on an exact rational. -/
def round2 (q : ℚ) : ℚ := ((pyRound (q * 100) : ℤ) : ℚ) / 100

/-- Density metrics written into a record by read_population_data:
cd, dd, rd and ad in the source dict keys. -/
structure Densities where
  cd : ℚ
  dd : ℚ
  rd : ℚ
  ad : ℚ
deriving DecidableEq

/-- Density computation of read_population_data, src/main.py lines
286-306, for a record whose code matched a population row with
population greater than 0. -/
def compute_densities (rec : CountryRec) (population : ℤ) : Densities :=
  let confirmed_density := round2 ((rec.confirmed : ℚ) * 100 / (population : ℚ))
  let deaths_density :=
    if rec.confirmed > 0 then
      round2 ((rec.deaths : ℚ) * 1000 / (rec.confirmed : ℚ))
    else 0
  let recovered_density :=
    if rec.confirmed > 0 then
      ((pyRound ((rec.recovered : ℚ) * 1000 / (rec.confirmed : ℚ)) : ℤ) : ℚ)
    else 0
  let active_density :=
    if rec.active > 0 then round2 ((rec.active : ℚ) * 100 / (population : ℚ))
    else 0
  { cd := confirmed_density, dd := deaths_density,
    rd := recovered_density, ad := active_density }

/-- Confirmed-density bucket chain of src/main.py lines 312-323. -/
def co_bucket (v : ℚ) : Option ℚ :=
  if v = 0 then some 0
  else if v > 0 ∧ v < 10 then some 0.2
  else if v ≥ 10 ∧ v < 100 then some 0.4
  else if v ≥ 100 ∧ v < 200 then some 0.6
  else if v ≥ 200 ∧ v < 300 then some 0.8
  else if v ≥ 300 then some 1
  else Option.none

/-- Recovered-density bucket chain of src/main.py lines 325-336. -/
def ro_bucket (v : ℚ) : Option ℚ :=
  if v = 0 then some 0
  else if v > 0 ∧ v < 10 then some 0.2
  else if v ≥ 10 ∧ v < 100 then some 0.4
  else if v ≥ 100 ∧ v < 200 then some 0.6
  else if v ≥ 200 ∧ v < 300 then some 0.8
  else if v ≥ 300 then some 1
  else Option.none

/-- Deaths-density bucket chain of src/main.py lines 338-349. -/
def do_bucket (v : ℚ) : Option ℚ :=
  if v = 0 then some 0
  else if v > 0 ∧ v < 5 then some 0.2
  else if v ≥ 5 ∧ v < 10 then some 0.4
  else if v ≥ 10 ∧ v < 50 then some 0.6
  else if v ≥ 50 ∧ v < 100 then some 0.8
  else if v ≥ 100 then some 1
  else Option.none

/-- Active-density bucket chain of src/main.py lines 351-362. -/
def ao_bucket (v : ℚ) : Option ℚ :=
  if v = 0 then some 0
  else if v > 0 ∧ v < 10 then some 0.2
  else if v ≥ 10 ∧ v < 100 then some 0.4
  else if v ≥ 100 ∧ v < 200 then some 0.6
  else if v ≥ 200 ∧ v < 300 then some 0.8
  else if v ≥ 300 then some 1
  else Option.none

/-- Modelled from the spec (section 4.4): the six-level step function
described there, with breakpoints b1 to b4.  Exactly 0 maps to bucket
0, a value strictly between 0 and b1 to 0.2, the three middle bands to
0.4, 0.6 and 0.8 in order, and a value at or above b4 to 1. -/
def step6 (b1 b2 b3 b4 : ℚ) (v : ℚ) : Option ℚ :=
  if v = 0 then some 0
  else if v > 0 ∧ v < b1 then some 0.2
  else if v ≥ b1 ∧ v < b2 then some 0.4
  else if v ≥ b2 ∧ v < b3 then some 0.6
  else if v ≥ b3 ∧ v < b4 then some 0.8
  else if v ≥ b4 then some 1
  else Option.none

/-- Zero-burden whitelist of validate_json, src/main.py line 648. -/
def VALIDATE_WHITELIST : List String := ["TKM", "PRK"]

/-- Per-record violation test of validate_json, src/main.py line 648:
true for a non-whitelisted record with all counters at or below zero,
or with confirmed below deaths plus recovered. -/
def record_violates (code : String) (data : CountryRec) : Bool :=
  (!(decide (data.confirmed > 0) || decide (data.deaths > 0) ||
      decide (data.recovered > 0)) ||
    !(decide (data.confirmed ≥ data.deaths + data.recovered))) &&
  !(VALIDATE_WHITELIST.contains code)

/-- validate_json of src/main.py lines 634-656.  The dataset is a list
of code-record pairs (the items of the covid_data dict) and
countriesCount is the size of the COUNTRIES reference table.  The
count guard returns False when violated; a per-record violation raises
ValueError. -/
def validate_json (countriesCount : Nat) (dataset : List (String × CountryRec)) :
    Except String Bool :=
  if countriesCount ≥ dataset.length ∧ dataset.length > 100 then
    if dataset.any (fun p => record_violates p.1 p.2) then
      Except.error "ValueError"
    else Except.ok true
  else Except.ok false

/-! Concrete instances used by counterexamples and witnesses. -/

/-- Concrete CSSE git record whose latest_update holds an ISO 8601
timestamp with a T separator, the format the daily reports used. -/
def c1sec : CountryRec :=
  { code := "FRA", titles := [], confirmed := 8, deaths := 1, recovered := 2,
    active := 5, latest_update := "2020-03-22T23:45:00",
    source := Source.str "JHU CSSE" }

/-- Concrete secondary per-source mapping holding only c1sec. -/
def c1csse : Dict CountryRec := fun c => if c = "FRA" then some c1sec else Option.none

/-- Concrete ArcGIS record for the same code with lower counts. -/
def c1cur : CountryRec :=
  { code := "FRA", titles := [], confirmed := 5, deaths := 3, recovered := 1,
    active := 1, latest_update := "2020-03-20 00:00:00",
    source := Source.str "JHU CSSE" }

/-- Concrete merged dataset holding only c1cur. -/
def c1covid : Dict CountryRec := fun c => if c = "FRA" then some c1cur else Option.none

/-- Concrete manual record for the C2 witness. -/
def c2man_rec : CountryRec :=
  { code := "RUS", titles := [], confirmed := 3, deaths := 1, recovered := 1,
    active := 1, latest_update := "2020-04-01 00:00:00",
    source := Source.loc [("ru", "x"), ("en", "y")] }

/-- Concrete conflicting primary record for the C2 witness. -/
def c2arc_rec : CountryRec :=
  { code := "RUS", titles := [], confirmed := 100, deaths := 5, recovered := 7,
    active := 88, latest_update := "2020-04-02 00:00:00",
    source := Source.str "JHU CSSE" }

/-- Concrete internally consistent record for the C3 counterexample. -/
def c3good : CountryRec :=
  { code := "", titles := [], confirmed := 5, deaths := 1, recovered := 1,
    active := 3, latest_update := "", source := Source.str "" }

/-- Concrete record violating the control sum (confirmed below deaths
plus recovered), taken from section 8 of the spec. -/
def c3bad : CountryRec :=
  { code := "", titles := [], confirmed := 2, deaths := 1, recovered := 2,
    active := 0, latest_update := "", source := Source.str "" }

/-- Concrete dataset of 101 records whose first record is bad. -/
def c3dataset : List (String × CountryRec) :=
  ("BAD", c3bad) :: (List.range 100).map (fun i => (toString i, c3good))

/-- Concrete CODES table for the C6 witness. -/
def c6codes : Dict String := fun n => if n = "Iran" then some "IRN" else Option.none

/-- Record built by add_country_data from confirmed 1, deaths 2,
recovered 2: the raw difference is negative, active is clamped to 0. -/
def c6rec : CountryRec :=
  { code := "IRN", titles := [], confirmed := 1, deaths := 2, recovered := 2,
    active := 0, latest_update := "2020-04-01", source := Source.str "JHU CSSE" }

/-- Concrete record for the C7 witness (spec section 8 example). -/
def c7rec : CountryRec :=
  { code := "AAA", titles := [], confirmed := 12, deaths := 1, recovered := 5,
    active := 6, latest_update := "", source := Source.str "" }

/-- Concrete Worldometer record for the C8 witness. -/
def c8w : CountryRec :=
  { code := "RUS", titles := [], confirmed := 50, deaths := 2, recovered := 3,
    active := 45, latest_update := "2020-04-05",
    source := Source.str "Worldometer" }

/-- Concrete merged record already present for the C8 witness. -/
def c8cur : CountryRec :=
  { code := "RUS", titles := [], confirmed := 40, deaths := 2, recovered := 3,
    active := 35, latest_update := "2020-04-04", source := Source.str "JHU CSSE" }

/-- Concrete COUNTRIES table for the C8 witness. -/
def c8countries : Dict (List (String × String)) :=
  fun c => if c = "RUS" then some [("en", "Russia"), ("ru", "RU")] else Option.none

/-- Concrete merged dataset for the C8 witness. -/
def c8covid : Dict CountryRec := fun c => if c = "RUS" then some c8cur else Option.none

/-- Concrete Worldometer per-source mapping for the C8 witness. -/
def c8wom : Dict CountryRec := fun c => if c = "RUS" then some c8w else Option.none

/-- Concrete reference rows for the C10 witness. -/
def c10rows : List (String × String × String) := [("RUS", "Russia", "RU")]

/-- Record built by add_country_data over the c10rows tables. -/
def c10wom_rec : CountryRec :=
  { code := "RUS", titles := [("en", "Russia"), ("ru", "RU")], confirmed := 5,
    deaths := 1, recovered := 1, active := 3, latest_update := "2020-04-05",
    source := Source.str "Worldometer" }

/-- Concrete Worldometer per-source mapping for the C10 witness. -/
def c10wom : Dict CountryRec :=
  fun c => if c = "RUS" then some c10wom_rec else Option.none

/-! Theorems. -/

/-- Stability facts about TITLES: looking up any key of the table
yields the paired target, and every target is a fixed point of the
alias rewrite. -/
theorem titles_lookup_stable :
    ∀ p ∈ TITLES, List.lookup p.1 TITLES = some p.2 ∧
      normalize_title p.2 = p.2 := by
  decide

/-- C9: for every raw name that is a key of the static alias table,
normalizing the raw name yields the same country code, or the same
null result, as normalizing the alias target directly, for any CODES
table. -/
theorem c9_alias_roundtrip (codes : Dict String) (p : String × String)
    (hp : p ∈ TITLES) :
    normalize codes p.1 = normalize codes p.2 := by
  obtain ⟨h1, h2⟩ := titles_lookup_stable p hp
  by_cases hk : p.1 = ""
  · have hlook : List.lookup "" TITLES = some "" := by decide
    rw [hk] at h1
    rw [hlook] at h1
    injection h1 with h0
    rw [hk, ← h0]
  · have ht : normalize_title p.1 = p.2 := by
      unfold normalize_title
      rw [if_pos hk, h1]
    unfold normalize
    rw [ht, h2]

/-- Witness for C9 at the alias US. -/
theorem c9_alias_roundtrip_witness :
    normalize (fun _ => Option.none) "US" =
      normalize (fun _ => Option.none) "United States of America" :=
  c9_alias_roundtrip (fun _ => Option.none)
    ("US", "United States of America") (by decide)

/-- C2: the manual source always wins: every code present in the
manual mapping maps, after combine_data, to exactly the manual record,
whatever the primary, secondary and tertiary mappings contained. -/
theorem c2_manual_wins (countries : Dict (List (String × String)))
    (arcgis csse wom man : Dict CountryRec) (code : String) (rec : CountryRec)
    (hm : man code = some rec) :
    combine_data countries arcgis csse wom man code = some rec := by
  unfold combine_data merge_manual
  rw [hm]

/-- Witness for C2: the manual record overrides a conflicting ArcGIS
record. -/
theorem c2_manual_wins_witness :
    combine_data (fun _ => Option.none)
      (fun c => if c = "RUS" then some c2arc_rec else Option.none)
      (fun _ => Option.none) (fun _ => Option.none)
      (fun c => if c = "RUS" then some c2man_rec else Option.none) "RUS" =
      some c2man_rec :=
  c2_manual_wins _ _ _ _ _ "RUS" c2man_rec rfl

/-- Totality of parse_num on string input: stripping, comma removal
and the guarded int conversion always produce a value. -/
theorem parse_num_str_total (s : String) :
    ∃ k : Int, parse_num (PyVal.str s) = Except.ok k := by
  unfold parse_num
  dsimp only
  by_cases hl : (stripCommas (pyStrip s)).length ≠ 0
  · rw [if_pos hl]
    cases h : pyParseInt (stripCommas (pyStrip s)) with
    | some n => exact ⟨n, rfl⟩
    | none => exact ⟨0, rfl⟩
  · rw [if_neg hl]
    exact ⟨0, rfl⟩

/-- C4: parse_num at the claimed inputs.  Ints are returned unchanged
and every string yields a value, with commas and surrounding
whitespace stripped and unparsable or empty strings giving 0; but the
None default falls through to text.strip() and raises AttributeError
instead of returning 0, contradicting the claim that a call with no
argument or a None argument yields 0 without throwing. -/
theorem c4_parse_num_eval :
    parse_num (PyVal.str "1,234") = Except.ok 1234 ∧
    parse_num (PyVal.str "") = Except.ok 0 ∧
    parse_num (PyVal.str "abc") = Except.ok 0 ∧
    parse_num (PyVal.int 7) = Except.ok 7 ∧
    (∀ n : Int, parse_num (PyVal.int n) = Except.ok n) ∧
    (∀ s : String, ∃ k : Int, parse_num (PyVal.str s) = Except.ok k) ∧
    parse_num PyVal.none = Except.error "AttributeError" :=
  ⟨rfl, rfl, rfl, rfl, fun _ => rfl, parse_num_str_total, rfl⟩

/-- C5: each of the four bucket chains is the six-level step function
of the spec with its per-metric breakpoints (10, 100, 200, 300 for the
confirmed, recovered and active buckets; 5, 10, 50, 100 for the deaths
bucket), and the claimed boundary values hold: a confirmed density of
exactly 10 gives 0.4, 9.99 gives 0.2, 300 gives 1 and 0 gives 0. -/
theorem c5_bucket_step :
    (∀ v : ℚ, co_bucket v = step6 10 100 200 300 v) ∧
    (∀ v : ℚ, ro_bucket v = step6 10 100 200 300 v) ∧
    (∀ v : ℚ, ao_bucket v = step6 10 100 200 300 v) ∧
    (∀ v : ℚ, do_bucket v = step6 5 10 50 100 v) ∧
    co_bucket 10 = some 0.4 ∧ co_bucket 9.99 = some 0.2 ∧
    co_bucket 300 = some 1 ∧ co_bucket 0 = some 0 := by
  refine ⟨fun v => rfl, fun v => rfl, fun v => rfl, fun v => rfl,
    ?_, ?_, ?_, ?_⟩ <;> norm_num [co_bucket]

/-- C1 (amended): monotonic repair by the secondary source.  A code
absent from the merged dataset gets the whole secondary record, except
that latest_update has each T replaced by a space and source is set to
the label JHU CSSE; for a present code, each of confirmed, deaths and
recovered is independently raised to the secondary value exactly when
that value is strictly larger, and latest_update (T replaced by space)
and source are rewritten exactly when at least one field was raised,
all other fields staying unchanged. -/
theorem c1_secondary_repair (covid csse : Dict CountryRec) (code : String)
    (sec : CountryRec) (hs : csse code = some sec) :
    (covid code = Option.none →
      merge_csse covid csse code =
        some { sec with latest_update := replaceT sec.latest_update,
                        source := Source.str "JHU CSSE" }) ∧
    (∀ cur, covid code = some cur →
      ∃ res, merge_csse covid csse code = some res ∧
        (cur.confirmed < sec.confirmed → res.confirmed = sec.confirmed) ∧
        (¬ cur.confirmed < sec.confirmed → res.confirmed = cur.confirmed) ∧
        (cur.deaths < sec.deaths → res.deaths = sec.deaths) ∧
        (¬ cur.deaths < sec.deaths → res.deaths = cur.deaths) ∧
        (cur.recovered < sec.recovered → res.recovered = sec.recovered) ∧
        (¬ cur.recovered < sec.recovered → res.recovered = cur.recovered) ∧
        ((cur.confirmed < sec.confirmed ∨ cur.deaths < sec.deaths ∨
            cur.recovered < sec.recovered) →
          res.latest_update = replaceT sec.latest_update ∧
            res.source = Source.str "JHU CSSE") ∧
        (¬ (cur.confirmed < sec.confirmed ∨ cur.deaths < sec.deaths ∨
            cur.recovered < sec.recovered) → res = cur)) := by
  constructor
  · intro h0
    unfold merge_csse
    rw [hs, h0]
  · intro cur hc
    unfold merge_csse
    rw [hs, hc]
    dsimp only
    split_ifs with ho h1 h2 h3 <;> exact ⟨_, rfl, by simp_all⟩

/-- Witness for C1 at the concrete FRA records: the secondary has a
larger confirmed count, so the repair fires. -/
theorem c1_secondary_repair_witness :
    ∃ res, merge_csse c1covid c1csse "FRA" = some res ∧
      (c1cur.confirmed < c1sec.confirmed → res.confirmed = c1sec.confirmed) ∧
      (¬ c1cur.confirmed < c1sec.confirmed → res.confirmed = c1cur.confirmed) ∧
      (c1cur.deaths < c1sec.deaths → res.deaths = c1sec.deaths) ∧
      (¬ c1cur.deaths < c1sec.deaths → res.deaths = c1cur.deaths) ∧
      (c1cur.recovered < c1sec.recovered → res.recovered = c1sec.recovered) ∧
      (¬ c1cur.recovered < c1sec.recovered → res.recovered = c1cur.recovered) ∧
      ((c1cur.confirmed < c1sec.confirmed ∨ c1cur.deaths < c1sec.deaths ∨
          c1cur.recovered < c1sec.recovered) →
        res.latest_update = replaceT c1sec.latest_update ∧
          res.source = Source.str "JHU CSSE") ∧
      (¬ (c1cur.confirmed < c1sec.confirmed ∨ c1cur.deaths < c1sec.deaths ∨
          c1cur.recovered < c1sec.recovered) → res = c1cur) :=
  (c1_secondary_repair c1covid c1csse "FRA" c1sec rfl).2 c1cur rfl

/-- C1 counterexample: the secondary record c1sec (latest_update holds
a T separator, as in the CSSE daily reports) is not inserted wholesale
when its code is absent from the merged dataset: the stored record
differs from c1sec, because the T was replaced by a space. -/
theorem c1_counterexample :
    merge_csse (fun _ => Option.none) c1csse "FRA" ≠ some c1sec ∧
    merge_csse (fun _ => Option.none) c1csse "FRA" =
      some { c1sec with latest_update := "2020-03-22 23:45:00" } := by
  constructor <;> decide

/-- C3 (amended): validate_json yields True exactly when the count
guard holds and no record violates the per-record rule; it yields
False exactly when the count guard fails; and it raises ValueError,
rather than returning a boolean, exactly when the count guard holds
and some record violates the rule.  The last conjunct characterizes
the per-record rule: a record passes when its code is whitelisted or
when some counter is positive and confirmed covers deaths plus
recovered. -/
theorem c3_validator_contract (countriesCount : Nat)
    (dataset : List (String × CountryRec)) :
    (validate_json countriesCount dataset = Except.ok true ↔
      (countriesCount ≥ dataset.length ∧ dataset.length > 100) ∧
        ∀ p ∈ dataset, record_violates p.1 p.2 = false) ∧
    (validate_json countriesCount dataset = Except.error "ValueError" ↔
      (countriesCount ≥ dataset.length ∧ dataset.length > 100) ∧
        ∃ p ∈ dataset, record_violates p.1 p.2 = true) ∧
    (validate_json countriesCount dataset = Except.ok false ↔
      ¬ (countriesCount ≥ dataset.length ∧ dataset.length > 100)) ∧
    (∀ code data, record_violates code data = false ↔
      (code ∈ VALIDATE_WHITELIST ∨
        ((0 < data.confirmed ∨ 0 < data.deaths ∨ 0 < data.recovered) ∧
          data.deaths + data.recovered ≤ data.confirmed))) := by
  have hviol : ∀ (code : String) (data : CountryRec),
      record_violates code data = false ↔
        (code ∈ VALIDATE_WHITELIST ∨
          ((0 < data.confirmed ∨ 0 < data.deaths ∨ 0 < data.recovered) ∧
            data.deaths + data.recovered ≤ data.confirmed)) := by
    intro code data
    unfold record_violates
    by_cases hm : code ∈ VALIDATE_WHITELIST
    · have hc : VALIDATE_WHITELIST.contains code = true := List.elem_iff.mpr hm
      rw [hc]
      simp [hm]
    · have hc : VALIDATE_WHITELIST.contains code = false := by
        rw [← Bool.not_eq_true]
        intro hcon
        exact hm (List.elem_iff.mp hcon)
      rw [hc]
      simp only [Bool.not_false, Bool.and_true, Bool.or_eq_false_iff,
        Bool.not_eq_false', Bool.not_eq_true', Bool.or_eq_true, decide_eq_true_eq,
        decide_eq_false_iff_not]
      constructor
      · intro ⟨hpos, hsum⟩
        exact Or.inr ⟨by tauto, hsum⟩
      · intro h
        rcases h with hw | ⟨hpos, hsum⟩
        · exact absurd hw hm
        · exact ⟨by tauto, hsum⟩
  refine ⟨?_, ?_, ?_, hviol⟩
  · unfold validate_json
    by_cases hcount : countriesCount ≥ dataset.length ∧ dataset.length > 100
    · rw [if_pos hcount]
      by_cases hany : dataset.any (fun p => record_violates p.1 p.2) = true
      · rw [if_pos hany]
        rw [List.any_eq_true] at hany
        obtain ⟨p, hp, hv⟩ := hany
        simp only [hcount, true_and]
        constructor
        · intro h; exact absurd h (by simp)
        · intro hall; exact absurd (hall p hp) (by simp [hv])
      · rw [if_neg hany]
        have hall : ∀ p ∈ dataset, record_violates p.1 p.2 = false := by
          intro p hp
          rw [← Bool.not_eq_true]
          intro hv
          exact hany (List.any_eq_true.mpr ⟨p, hp, hv⟩)
        simp only [hcount, true_and]
        exact ⟨fun _ => hall, fun _ => trivial⟩
    · rw [if_neg hcount]
      constructor
      · intro h; exact absurd h (by simp)
      · intro h; exact absurd h.1 hcount
  · unfold validate_json
    by_cases hcount : countriesCount ≥ dataset.length ∧ dataset.length > 100
    · rw [if_pos hcount]
      by_cases hany : dataset.any (fun p => record_violates p.1 p.2) = true
      · rw [if_pos hany]
        rw [List.any_eq_true] at hany
        simp only [hcount, true_and]
        exact ⟨fun _ => hany, fun _ => trivial⟩
      · rw [if_neg hany]
        constructor
        · intro h; exact absurd h (by simp)
        · intro h
          obtain ⟨_, p, hp, hv⟩ := h
          exact absurd (List.any_eq_true.mpr ⟨p, hp, hv⟩) hany
    · rw [if_neg hcount]
      constructor
      · intro h; exact absurd h (by simp)
      · intro h; exact absurd h.1 hcount
  · unfold validate_json
    by_cases hcount : countriesCount ≥ dataset.length ∧ dataset.length > 100
    · rw [if_pos hcount]
      by_cases hany : dataset.any (fun p => record_violates p.1 p.2) = true
      · rw [if_pos hany]
        constructor
        · intro h; exact absurd h (by simp)
        · intro h; exact absurd hcount h
      · rw [if_neg hany]
        constructor
        · intro h; exact absurd h (by simp)
        · intro h; exact absurd hcount h
    · rw [if_neg hcount]
      exact ⟨fun _ => hcount, fun _ => rfl⟩

/-- C3 counterexample: on a dataset of 101 records whose first record
has confirmed 2, deaths 1, recovered 2 (control sum violated, code not
whitelisted), validate_json raises ValueError instead of returning a
boolean, refuting the claim that validate always returns a boolean. -/
theorem c3_counterexample :
    validate_json 300 c3dataset = Except.error "ValueError" := by
  rfl

/-- C6: every record that add_country_data returns has its active
field equal to confirmed minus deaths minus recovered clamped to 0
from below, hence active is never negative, also when confirmed is
smaller than deaths plus recovered. -/
theorem c6_active_clamped (codes : Dict String)
    (countries : Dict (List (String × String))) (cn : Option String)
    (cv dv rv : PyVal) (lu : String) (src : Source) (rec : CountryRec)
    (h : add_country_data codes countries cn cv dv rv lu src =
      Except.ok (some rec)) :
    rec.active = max (rec.confirmed - rec.deaths - rec.recovered) 0 ∧
      0 ≤ rec.active := by
  unfold add_country_data at h
  cases cn with
  | none => exact absurd h (by simp)
  | some raw =>
    dsimp only at h
    split at h
    · cases hcc : codes (normalize_title raw) with
      | none => rw [hcc] at h; exact absurd h (by simp)
      | some cc =>
        rw [hcc] at h
        cases h1 : parse_num cv with
        | error e => rw [h1] at h; exact absurd h (by simp)
        | ok c =>
          rw [h1] at h
          cases h2 : parse_num dv with
          | error e => rw [h2] at h; exact absurd h (by simp)
          | ok d =>
            rw [h2] at h
            cases h3 : parse_num rv with
            | error e => rw [h3] at h; exact absurd h (by simp)
            | ok r =>
              rw [h3] at h
              simp only [Except.ok.injEq, Option.some.injEq] at h
              subst h
              dsimp only
              rw [max_def]
              constructor
              · split_ifs <;> omega
              · split_ifs <;> omega
    · exact absurd h (by simp)

/-- Witness for C6 at confirmed 1, deaths 2, recovered 2: the raw
difference is negative and active is clamped to 0. -/
theorem c6_active_clamped_witness :
    c6rec.active = max (c6rec.confirmed - c6rec.deaths - c6rec.recovered) 0 ∧
      0 ≤ c6rec.active :=
  c6_active_clamped c6codes (fun _ => Option.none) (some "Iran")
    (PyVal.int 1) (PyVal.int 2) (PyVal.int 2) "2020-04-01"
    (Source.str "JHU CSSE") c6rec rfl

/-- C7: the density fields of compute_densities follow the claimed
formulas: cd is round(confirmed * 100 / population, 2); when confirmed
is positive, dd is round(deaths * 1000 / confirmed, 2) and rd is
round(recovered * 1000 / confirmed) rounded to an integer (the coarser
of the four ratios), else both are 0; ad is
round(active * 100 / population, 2) when active is positive, else 0. -/
theorem c7_density_formulas (rec : CountryRec) (population : ℤ)
    (hpop : 0 < population) :
    (compute_densities rec population).cd =
      round2 ((rec.confirmed : ℚ) * 100 / (population : ℚ)) ∧
    (0 < rec.confirmed →
      (compute_densities rec population).dd =
        round2 ((rec.deaths : ℚ) * 1000 / (rec.confirmed : ℚ)) ∧
      (compute_densities rec population).rd =
        ((pyRound ((rec.recovered : ℚ) * 1000 / (rec.confirmed : ℚ)) : ℤ) : ℚ)) ∧
    (¬ 0 < rec.confirmed →
      (compute_densities rec population).dd = 0 ∧
      (compute_densities rec population).rd = 0) ∧
    (0 < rec.active →
      (compute_densities rec population).ad =
        round2 ((rec.active : ℚ) * 100 / (population : ℚ))) ∧
    (¬ 0 < rec.active → (compute_densities rec population).ad = 0) ∧
    (∃ k : ℤ, (compute_densities rec population).rd = (k : ℚ)) := by
  have hdd : (compute_densities rec population).dd =
      if rec.confirmed > 0 then
        round2 ((rec.deaths : ℚ) * 1000 / (rec.confirmed : ℚ))
      else 0 := rfl
  have hrd : (compute_densities rec population).rd =
      if rec.confirmed > 0 then
        ((pyRound ((rec.recovered : ℚ) * 1000 / (rec.confirmed : ℚ)) : ℤ) : ℚ)
      else 0 := rfl
  have had : (compute_densities rec population).ad =
      if rec.active > 0 then
        round2 ((rec.active : ℚ) * 100 / (population : ℚ))
      else 0 := rfl
  refine ⟨rfl, fun hc => ⟨by rw [hdd, if_pos hc], by rw [hrd, if_pos hc]⟩,
    fun hc => ⟨by rw [hdd, if_neg hc], by rw [hrd, if_neg hc]⟩,
    fun ha => by rw [had, if_pos ha],
    fun ha => by rw [had, if_neg ha], ?_⟩
  by_cases hc : rec.confirmed > 0
  · exact ⟨_, by rw [hrd, if_pos hc]⟩
  · exact ⟨0, by rw [hrd, if_neg hc]; norm_num⟩

/-- Witness for C7 at the spec section 8 example record (confirmed 12,
population 1000000). -/
theorem c7_density_formulas_witness :
    (compute_densities c7rec 1000000).cd =
      round2 ((c7rec.confirmed : ℚ) * 100 / ((1000000 : ℤ) : ℚ)) ∧
    (0 < c7rec.confirmed →
      (compute_densities c7rec 1000000).dd =
        round2 ((c7rec.deaths : ℚ) * 1000 / (c7rec.confirmed : ℚ)) ∧
      (compute_densities c7rec 1000000).rd =
        ((pyRound ((c7rec.recovered : ℚ) * 1000 / (c7rec.confirmed : ℚ)) : ℤ) : ℚ)) ∧
    (¬ 0 < c7rec.confirmed →
      (compute_densities c7rec 1000000).dd = 0 ∧
      (compute_densities c7rec 1000000).rd = 0) ∧
    (0 < c7rec.active →
      (compute_densities c7rec 1000000).ad =
        round2 ((c7rec.active : ℚ) * 100 / ((1000000 : ℤ) : ℚ))) ∧
    (¬ 0 < c7rec.active → (compute_densities c7rec 1000000).ad = 0) ∧
    (∃ k : ℤ, (compute_densities c7rec 1000000).rd = (k : ℚ)) :=
  c7_density_formulas c7rec 1000000 (by norm_num)

/-- C8: tertiary (Worldometer) admission: for a code of the tertiary
per-source mapping (such codes are always known to COUNTRIES, see the
builder invariant), the tertiary record replaces or adds the merged
entry exactly when the code is absent from the merged dataset or lies
in the fixed override whitelist, and the merged entry is left
unchanged otherwise. -/
theorem c8_tertiary_admission (countries : Dict (List (String × String)))
    (covid wom : Dict CountryRec) (code : String) (w : CountryRec)
    (hw : wom code = some w) (hc : (countries code).isSome = true) :
    merge_wom countries covid wom code =
      if (covid code).isNone || WOM_WHITELIST.contains code then some w
      else covid code := by
  unfold merge_wom
  rw [hw]
  dsimp only
  by_cases hcond : ((covid code).isNone || WOM_WHITELIST.contains code) = true
  · rw [if_pos hcond, if_pos hc, if_pos hcond]
  · rw [if_neg hcond, if_neg hcond]

/-- Witness for C8 at the whitelisted code RUS with an entry already
present in the merged dataset. -/
theorem c8_tertiary_admission_witness :
    merge_wom c8countries c8covid c8wom "RUS" =
      if (c8covid "RUS").isNone || WOM_WHITELIST.contains "RUS" then some c8w
      else c8covid "RUS" :=
  c8_tertiary_admission c8countries c8covid c8wom "RUS" c8w rfl rfl

/-- Loader invariant, generalized over the accumulator: if every code
registered in the CODES accumulator is a key of the COUNTRIES
accumulator, the same holds after folding any list of rows. -/
theorem rcl_inv_aux (rows : List (String × String × String))
    (acc : Dict (List (String × String)) × Dict String)
    (hacc : ∀ name code, acc.2 name = some code → (acc.1 code).isSome = true) :
    ∀ name code, (rows.foldl rcl_step acc).2 name = some code →
      ((rows.foldl rcl_step acc).1 code).isSome = true := by
  induction rows generalizing acc with
  | nil => exact hacc
  | cons row rest ih =>
    intro name code h
    rw [List.foldl_cons] at h
    rw [List.foldl_cons]
    refine ih (rcl_step acc row) ?_ name code h
    intro n c hc
    unfold rcl_step dupdate at hc ⊢
    dsimp only at hc ⊢
    by_cases hn : n = row.2.1
    · rw [if_pos hn] at hc
      injection hc with hc
      subst hc
      rw [if_pos rfl]
      rfl
    · rw [if_neg hn] at hc
      by_cases hcr : c = row.1
      · rw [if_pos hcr]
        rfl
      · rw [if_neg hcr]
        exact hacc n c hc

/-- Code extraction from the builder: a returned record carries a code
that is a value of the CODES table. -/
theorem add_country_data_code (codes : Dict String)
    (countries : Dict (List (String × String))) (cn : Option String)
    (cv dv rv : PyVal) (lu : String) (src : Source) (rec : CountryRec)
    (h : add_country_data codes countries cn cv dv rv lu src =
      Except.ok (some rec)) :
    ∃ name, codes name = some rec.code := by
  unfold add_country_data at h
  cases cn with
  | none => exact absurd h (by simp)
  | some raw =>
    dsimp only at h
    split at h
    · cases hcc : codes (normalize_title raw) with
      | none => rw [hcc] at h; exact absurd h (by simp)
      | some cc =>
        rw [hcc] at h
        cases h1 : parse_num cv with
        | error e => rw [h1] at h; exact absurd h (by simp)
        | ok c =>
          rw [h1] at h
          cases h2 : parse_num dv with
          | error e => rw [h2] at h; exact absurd h (by simp)
          | ok d =>
            rw [h2] at h
            cases h3 : parse_num rv with
            | error e => rw [h3] at h; exact absurd h (by simp)
            | ok r =>
              rw [h3] at h
              simp only [Except.ok.injEq, Option.some.injEq] at h
              subst h
              exact ⟨normalize_title raw, hcc⟩
    · exact absurd h (by simp)

/-- C10: over tables produced by read_country_list, every code the
loader registers in CODES is a key of COUNTRIES; every record built by
add_country_data carries such a code; and therefore the warning branch
of the Worldometer merge step, which drops a code missing from
COUNTRIES, is unreachable for a per-source mapping of builder
outputs. -/
theorem c10_builder_codes_registered (rows : List (String × String × String)) :
    (∀ name code, (read_country_list rows).2 name = some code →
      ((read_country_list rows).1 code).isSome = true) ∧
    (∀ cn cv dv rv lu src rec,
      add_country_data (read_country_list rows).2 (read_country_list rows).1
          cn cv dv rv lu src = Except.ok (some rec) →
      ((read_country_list rows).1 rec.code).isSome = true) ∧
    (∀ covid wom : Dict CountryRec,
      (∀ code r, wom code = some r → code = r.code ∧
        ∃ cn cv dv rv lu src,
          add_country_data (read_country_list rows).2 (read_country_list rows).1
            cn cv dv rv lu src = Except.ok (some r)) →
      ∀ code, wom_dropped (read_country_list rows).1 covid wom code = false) := by
  have part1 : ∀ name code, (read_country_list rows).2 name = some code →
      ((read_country_list rows).1 code).isSome = true := by
    unfold read_country_list
    exact rcl_inv_aux rows _ (fun n c hc => Option.noConfusion hc)
  have part2 : ∀ cn cv dv rv lu src rec,
      add_country_data (read_country_list rows).2 (read_country_list rows).1
          cn cv dv rv lu src = Except.ok (some rec) →
      ((read_country_list rows).1 rec.code).isSome = true := by
    intro cn cv dv rv lu src rec h
    obtain ⟨name, hname⟩ := add_country_data_code _ _ _ _ _ _ _ _ _ h
    exact part1 name rec.code hname
  refine ⟨part1, part2, ?_⟩
  intro covid wom hw code
  unfold wom_dropped
  cases hwc : wom code with
  | none => rfl
  | some r =>
    obtain ⟨hcode, cn, cv, dv, rv, lu, src, hbuild⟩ := hw code r hwc
    have hsome := part2 cn cv dv rv lu src r hbuild
    subst hcode
    cases hcs : (read_country_list rows).1 r.code with
    | none => rw [hcs] at hsome; exact absurd hsome (by simp)
    | some t => simp

/-- Witness for C10: over a one-row reference table, a Worldometer
mapping holding one builder-produced record is never dropped. -/
theorem c10_builder_codes_registered_witness :
    wom_dropped (read_country_list c10rows).1 (fun _ => Option.none)
      c10wom "RUS" = false := by
  refine (c10_builder_codes_registered c10rows).2.2 (fun _ => Option.none)
    c10wom ?_ "RUS"
  intro code r h
  by_cases hc : code = "RUS"
  · subst hc
    have heq : c10wom "RUS" = some c10wom_rec := rfl
    rw [heq] at h
    injection h with h
    subst h
    exact ⟨rfl, some "Russia", PyVal.int 5, PyVal.int 1, PyVal.int 1,
      "2020-04-05", Source.str "Worldometer", rfl⟩
  · rw [show c10wom code = Option.none from by
      unfold c10wom; rw [if_neg hc]] at h
    exact Option.noConfusion h

end Covid
